import Mathlib

/-!
# Verification of `KanbanGPT5.py`

A shallow embedding of the launcher script `src/KanbanGPT5.py`, a static-file
server launcher.  The script:

* resolves `public/` next to its own absolute path and validates it
  (lines 17-22), raising `SystemExit` with a message when missing;
* changes the working directory to it (line 24);
* parses the port from the environment variable `PORT` with default `"8000"`
  via Python's `int()` (line 26);
* binds a TCP server, prints a startup line, schedules a 0.8-second timer that
  opens a browser (lines 29-32);
* serves forever until `KeyboardInterrupt`, printing a shutdown line and
  closing the socket in a `finally` clause, inside a `with` block that closes
  it again on exit (lines 33-38).

The embedding turns the script's observable actions into an explicit trace of
events, parameterised by a `SysConfig` describing the ambient system
(filesystem, environment, how the serve loop ends, browser behaviour).
Python's `int()` on strings is modelled by `pyStrToInt` below; POSIX
`os.path.dirname` / `os.path.join` are modelled by `posixDirname` /
`posixJoin`.
-/

/-- The whitespace characters stripped by Python's `int()` before parsing
(the ASCII ones; exotic Unicode whitespace is outside the model). -/
def isPySpace (c : Char) : Bool :=
  c = ' ' || c = '\t' || c = '\n' || c = '\r' || c = '\x0b' || c = '\x0c'

/-- ASCII decimal digit, as accepted by Python's `int()`
(non-ASCII Unicode digits are outside the model). -/
def isPyDigit (c : Char) : Bool :=
  '0' ≤ c && c ≤ '9'

/-- Strip leading and trailing Python whitespace from a character list. -/
def pyStrip (l : List Char) : List Char :=
  ((l.dropWhile isPySpace).reverse.dropWhile isPySpace).reverse

/-- First character is a digit. -/
def headDigit : List Char → Bool
  | [] => false
  | c :: _ => isPyDigit c

/-- Validity of the digit part of an integer literal for Python's `int()`:
nonempty, every character a digit or `_`, first and last characters digits,
and no two adjacent underscores.  (Equivalently: underscores may appear only
between two digits, which is CPython's rule.) -/
def validDigits (l : List Char) : Bool :=
  !l.isEmpty &&
  l.all (fun c => isPyDigit c || c = '_') &&
  headDigit l &&
  headDigit l.reverse &&
  (l.zip l.tail).all (fun p => !(p.1 = '_' && p.2 = '_'))

/-- Numeric value of a list of digit characters (most significant first). -/
def digitsVal (l : List Char) : Nat :=
  l.foldl (fun a c => 10 * a + (c.toNat - '0'.toNat)) 0

/-- Parse the digit part (underscores allowed between digits); `none` means
`int()` raises `ValueError`. -/
def digitsToNat (l : List Char) : Option Nat :=
  if validDigits l then some (digitsVal (l.filter (fun c => !(c = '_')))) else none

/-- Parse a stripped character list as Python's `int()` does: optional single
sign, then digits with optional underscores between them. -/
def pyIntCore : List Char → Option Int
  | [] => none
  | c :: rest =>
    if c = '+' then (digitsToNat rest).map Int.ofNat
    else if c = '-' then (digitsToNat rest).map (fun n => -(n : Int))
    else (digitsToNat (c :: rest)).map Int.ofNat

/-- Model of Python's `int(s)` for a string `s` (line 26 of the script):
strip whitespace, optional sign, digits with underscore separators.  `none`
models a raised `ValueError`.  (CPython ≥ 3.11's default 4300-digit
conversion limit is not modelled; it is irrelevant to port strings.) -/
def pyStrToInt (s : String) : Option Int :=
  pyIntCore (pyStrip s.data)

/-- Model of POSIX `os.path.dirname`: everything before the final `/`,
with trailing slashes stripped unless the result is all slashes. -/
def posixDirname (p : String) : String :=
  let head := (p.data.reverse.dropWhile (fun c => !(c = '/'))).reverse
  if head.isEmpty then ""
  else if head.all (fun c => c = '/') then String.mk head
  else String.mk ((head.reverse.dropWhile (fun c => c = '/')).reverse)

/-- Whether a path begins with `/`. -/
def startsSlash (s : String) : Bool :=
  match s.data with
  | '/' :: _ => true
  | _ => false

/-- Whether a path ends with `/`. -/
def endsSlash (s : String) : Bool :=
  match s.data.getLast? with
  | some c => c = '/'
  | none => false

/-- Model of POSIX `os.path.join a b` for one extra component. -/
def posixJoin (a b : String) : String :=
  if startsSlash b then b
  else if a = "" || endsSlash a then a ++ b
  else a ++ "/" ++ b

/-- Result of a Python call in the model: normal return or a raised exception
(identified by its class name).  The exceptions relevant here are all
`Exception` subclasses. -/
inductive PyResult (α : Type)
  | ok (a : α)
  | exc (name : String)
  deriving DecidableEq

/-- How the blocking `httpd.serve_forever()` call (line 34) ends: by a
`KeyboardInterrupt`, or by some other exception escaping the loop.
(`serve_forever` never returns normally here since nothing calls
`shutdown()`.) -/
inductive ServeEnd
  | interrupt
  | excOther (name : String)
  deriving DecidableEq

/-- The ambient system a run of the script observes: the script's resolved
absolute path (the value of `os.path.abspath(__file__)`, line 17), the
process working directory at invocation, the filesystem's `os.path.isdir`
answers, the environment, whether the `TCPServer` constructor's bind
succeeds, how the serve loop ends, and the behaviour of
`webbrowser.open_new` (which returns a `bool` on success). -/
structure SysConfig where
  scriptAbsPath : String
  cwd : String
  isDir : String → Bool
  env : String → Option String
  bindOk : Bool
  serveEnd : ServeEnd
  webOpen : String → PyResult Bool

/-- Observable events of a run, in program order.  `systemExitMsg msg`
models `raise SystemExit(msg)` with a string argument: the interpreter
prints `msg` to stderr and exits with status 1, with no traceback.
`uncaughtExc name` models an uncaught exception: traceback printed, exit
status 1.  `exitOk` models the script returning normally: exit status 0.
`timerStart` records the timer delay in seconds as the exact fraction
`delayNum / delayDen`; the script's literal `0.8` is `8 / 10`. -/
inductive Event
  | isdirCheck (path : String) (result : Bool)
  | systemExitMsg (msg : String)
  | chdir (path : String)
  | envRead (key : String) (result : Option String)
  | bindSocket (host : String) (port : Int)
  | printLine (s : String)
  | timerStart (delayNum delayDen : Nat) (port : Int)
  | serveLoop
  | closeSocket
  | exitOk
  | uncaughtExc (name : String)
  deriving DecidableEq

/-- The message of the `SystemExit` raised at lines 20-22. -/
def publicDirMsg : String :=
  "public/ directory not found. Please ensure the static files are created at 'public/'."

/-- `base_dir = os.path.dirname(os.path.abspath(__file__))` (line 17). -/
def base_dir (cfg : SysConfig) : String :=
  posixDirname cfg.scriptAbsPath

/-- `public_dir = os.path.join(base_dir, "public")` (line 18). -/
def public_dir (cfg : SysConfig) : String :=
  posixJoin (base_dir cfg) "public"

/-- The startup line printed at line 30. -/
def startupMsg (port : Int) : String :=
  "KanbanGPT5 server running at http://localhost:" ++ toString port

/-- The shutdown line printed at line 36. -/
def shutdownMsg : String :=
  "\nShutting down server..."

/-- The URL passed to `webbrowser.open_new` at line 11. -/
def browser_url (port : Int) : String :=
  "http://localhost:" ++ toString port

/-- `open_browser` (lines 9-13): call `webbrowser.open_new` on the URL,
discard its Boolean result, and swallow any `Exception` via the bare
`try`/`except Exception: pass`.  It therefore never raises. -/
def open_browser (port : Int) (webOpen : String → PyResult Bool) : PyResult Unit :=
  match webOpen (browser_url port) with
  | .ok _ => .ok ()
  | .exc _ => .ok ()

/-- Events of the `try`/`except KeyboardInterrupt`/`finally` block
(lines 33-38) and the exit of the surrounding `with` block (line 29).
`server_close` runs once from the `finally` clause and once more from the
`with` block's `__exit__`, hence two `closeSocket` events.  On interrupt the
function then returns normally (exit 0); any other exception propagates
uncaught (exit 1, traceback). -/
def serveTail : ServeEnd → List Event
  | .interrupt =>
      [Event.printLine shutdownMsg, Event.closeSocket, Event.closeSocket, Event.exitOk]
  | .excOther e =>
      [Event.closeSocket, Event.closeSocket, Event.uncaughtExc e]

/-- Events from the `with socketserver.TCPServer(("", port), handler)`
statement onward (lines 29-38), given a successfully parsed `port`.  If the
constructor's bind fails it raises `OSError` (the constructor closes its own
socket internally before re-raising, so no `closeSocket` event of the bound
listener exists).  Otherwise: bind, print the startup line, start the
0.8-second one-shot browser timer (line 32), and enter the serve loop. -/
def afterBind (port : Int) (bindOk : Bool) (se : ServeEnd) : List Event :=
  if bindOk then
    Event.bindSocket "" port ::
    Event.printLine (startupMsg port) ::
    Event.timerStart 8 10 port ::
    Event.serveLoop ::
    serveTail se
  else
    [Event.uncaughtExc "OSError"]

/-- Events from line 26 onward, given the result of
`int(os.environ.get("PORT", "8000"))`: a `ValueError` from `int` propagates
uncaught; otherwise the server is constructed. -/
def afterParse (r : Option Int) (bindOk : Bool) (se : ServeEnd) : List Event :=
  match r with
  | none => [Event.uncaughtExc "ValueError"]
  | some port => afterBind port bindOk se

/-- The string `int()` is applied to at line 26:
`os.environ.get("PORT", "8000")`. -/
def portString (cfg : SysConfig) : String :=
  (cfg.env "PORT").getD "8000"

/-- `run_server` (lines 16-38) as the trace of its observable events:
resolve and check `public_dir`; on failure raise `SystemExit` with a
message; otherwise `chdir`, read and parse `PORT`, then bind and serve. -/
def run_server (cfg : SysConfig) : List Event :=
  Event.isdirCheck (public_dir cfg) (cfg.isDir (public_dir cfg)) ::
  if cfg.isDir (public_dir cfg) then
    Event.chdir (public_dir cfg) ::
    Event.envRead "PORT" (cfg.env "PORT") ::
    afterParse (pyStrToInt (portString cfg)) cfg.bindOk cfg.serveEnd
  else
    [Event.systemExitMsg publicDirMsg]

/-- Exit status contributed by a single event, if any. -/
def eventExitCode : Event → Option Nat
  | .systemExitMsg _ => some 1
  | .uncaughtExc _ => some 1
  | .exitOk => some 0
  | _ => none

/-- The process exit status of a trace: that of its (unique) exit event. -/
def exitCode (t : List Event) : Option Nat :=
  (t.filterMap eventExitCode).head?

/-- The lines printed to stdout before the serve loop starts. -/
def printsBeforeServe (t : List Event) : List String :=
  (t.takeWhile (fun e => !(e = Event.serveLoop))).filterMap
    (fun e => match e with | Event.printLine s => some s | _ => none)

/-- A baseline concrete system: script at `/app/KanbanGPT5.py`, a `public`
directory present next to it, `PORT` unset, bind succeeding, loop ended by
interrupt, browser opening fine. -/
def baseCfg : SysConfig where
  scriptAbsPath := "/app/KanbanGPT5.py"
  cwd := "/tmp"
  isDir := fun p => decide (p = "/app/public")
  env := fun _ => none
  bindOk := true
  serveEnd := ServeEnd.interrupt
  webOpen := fun _ => PyResult.ok true

/-- `baseCfg` with the given value of `PORT`. -/
def cfgWithPort (v : String) : SysConfig :=
  { baseCfg with env := fun k => if k = "PORT" then some v else none }

/-- `baseCfg` with no `public` directory anywhere on the filesystem, and a
malformed `PORT` value in the environment. -/
def cfgNoDir : SysConfig :=
  { baseCfg with
    isDir := fun _ => false
    env := fun k => if k = "PORT" then some "notanumber" else none }

theorem isPySpace_cases {c : Char} (h : isPySpace c = true) :
    c = ' ' ∨ c = '\t' ∨ c = '\n' ∨ c = '\r' ∨ c = '\x0b' ∨ c = '\x0c' := by
  simp only [isPySpace, Bool.or_eq_true, decide_eq_true_eq] at h
  tauto

theorem isPyDigit_not_space {c : Char} (h : isPyDigit c = true) : isPySpace c = false := by
  by_contra hc
  rw [Bool.not_eq_false] at hc
  rcases isPySpace_cases hc with h1 | h1 | h1 | h1 | h1 | h1 <;>
    subst h1 <;> exact absurd h (by decide)

theorem isPyDigit_ne {c : Char} (h : isPyDigit c = true) :
    c ≠ '_' ∧ c ≠ '+' ∧ c ≠ '-' := by
  refine ⟨?_, ?_, ?_⟩ <;> intro he <;> subst he <;> exact absurd h (by decide)

theorem dropWhile_space_of_digits {l : List Char} (hl : ∀ c ∈ l, isPyDigit c = true) :
    l.dropWhile isPySpace = l := by
  cases l with
  | nil => rfl
  | cons c t =>
    rw [List.dropWhile_cons, isPyDigit_not_space (hl c (by simp))]
    simp

theorem pyStrip_of_digits {l : List Char} (hl : ∀ c ∈ l, isPyDigit c = true) :
    pyStrip l = l := by
  unfold pyStrip
  rw [dropWhile_space_of_digits hl,
    dropWhile_space_of_digits (fun c hc => hl c (List.mem_reverse.mp hc)),
    List.reverse_reverse]

theorem validDigits_of_digits {l : List Char} (hne : l ≠ [])
    (hl : ∀ c ∈ l, isPyDigit c = true) : validDigits l = true := by
  unfold validDigits
  simp only [Bool.and_eq_true]
  refine ⟨⟨⟨⟨?_, ?_⟩, ?_⟩, ?_⟩, ?_⟩
  · cases l with
    | nil => exact absurd rfl hne
    | cons c t => rfl
  · rw [List.all_eq_true]
    intro c hc
    simp [hl c hc]
  · cases l with
    | nil => exact absurd rfl hne
    | cons c t => exact hl c (by simp)
  · cases hr : l.reverse with
    | nil => exact absurd (List.reverse_eq_nil_iff.mp hr) hne
    | cons c t =>
      have : c ∈ l := List.mem_reverse.mp (hr ▸ by simp)
      exact hl c this
  · rw [List.all_eq_true]
    intro p hp
    have h1 := (List.of_mem_zip hp).1
    simp [(isPyDigit_ne (hl p.1 h1)).1]

theorem filter_underscore_of_digits {l : List Char} (hl : ∀ c ∈ l, isPyDigit c = true) :
    l.filter (fun c => !(c = '_')) = l := by
  rw [List.filter_eq_self]
  intro a ha
  simp [(isPyDigit_ne (hl a ha)).1]

theorem pyStrToInt_of_digits (s : String) (hne : s.data ≠ [])
    (hl : ∀ c ∈ s.data, isPyDigit c = true) :
    pyStrToInt s = some (Int.ofNat (digitsVal s.data)) := by
  unfold pyStrToInt
  rw [pyStrip_of_digits hl]
  cases hd : s.data with
  | nil => exact absurd hd hne
  | cons c t =>
    have hc : isPyDigit c = true := hl c (hd ▸ List.mem_cons_self c t)
    have hall : ∀ x ∈ c :: t, isPyDigit x = true := fun x hx => hl x (hd ▸ hx)
    simp only [pyIntCore]
    rw [if_neg (isPyDigit_ne hc).2.1, if_neg (isPyDigit_ne hc).2.2]
    unfold digitsToNat
    rw [if_pos (validDigits_of_digits (by simp) hall),
      filter_underscore_of_digits hall]
    simp

theorem run_server_of_not_isdir (cfg : SysConfig)
    (h : cfg.isDir (public_dir cfg) = false) :
    run_server cfg =
      [Event.isdirCheck (public_dir cfg) false, Event.systemExitMsg publicDirMsg] := by
  simp [run_server, h]

theorem run_server_of_isdir (cfg : SysConfig)
    (h : cfg.isDir (public_dir cfg) = true) :
    run_server cfg =
      Event.isdirCheck (public_dir cfg) true ::
      Event.chdir (public_dir cfg) ::
      Event.envRead "PORT" (cfg.env "PORT") ::
      afterParse (pyStrToInt (portString cfg)) cfg.bindOk cfg.serveEnd := by
  simp [run_server, h]

/-- C2: whenever the resolved `public` directory is not a directory, the run
raises `SystemExit` with a nonempty user-visible message, exits with status 1,
never attempts to bind the listening socket, and no uncaught-exception
traceback reaches the user. -/
theorem C2_missing_dir_fails_fast (cfg : SysConfig)
    (h : cfg.isDir (public_dir cfg) = false) :
    Event.systemExitMsg publicDirMsg ∈ run_server cfg ∧
    publicDirMsg ≠ "" ∧
    exitCode (run_server cfg) = some 1 ∧
    (∀ hst p, Event.bindSocket hst p ∉ run_server cfg) ∧
    (∀ n, Event.uncaughtExc n ∉ run_server cfg) := by
  rw [run_server_of_not_isdir cfg h]
  refine ⟨by simp, by decide, rfl, ?_, ?_⟩
  · intro hst p
    simp
  · intro n
    simp

/-- C2 witness: concrete system with no `public` directory. -/
theorem C2_missing_dir_fails_fast_witness :
    cfgNoDir.isDir (public_dir cfgNoDir) = false ∧
    Event.systemExitMsg publicDirMsg ∈ run_server cfgNoDir ∧
    exitCode (run_server cfgNoDir) = some 1 := by
  have h := C2_missing_dir_fails_fast cfgNoDir rfl
  exact ⟨rfl, h.1, h.2.2.1⟩

/-- C9: when the `public` directory is missing, the program exits before
changing the working directory and before reading or parsing `PORT`: the
trace contains no `chdir`, no environment read, and no uncaught exception
(in particular no `ValueError` from a malformed `PORT`), and the exit status
is the missing-directory one. -/
theorem C9_missing_dir_precedes_port (cfg : SysConfig)
    (h : cfg.isDir (public_dir cfg) = false) :
    (∀ p, Event.chdir p ∉ run_server cfg) ∧
    (∀ k r, Event.envRead k r ∉ run_server cfg) ∧
    (∀ n, Event.uncaughtExc n ∉ run_server cfg) ∧
    exitCode (run_server cfg) = some 1 := by
  rw [run_server_of_not_isdir cfg h]
  refine ⟨?_, ?_, ?_, rfl⟩
  · intro p
    simp
  · intro k r
    simp
  · intro n
    simp

/-- C9 witness: with the directory missing and `PORT=notanumber` set, no
`chdir`, no read of `PORT`, and no `ValueError` occur. -/
theorem C9_missing_dir_precedes_port_witness :
    cfgNoDir.isDir (public_dir cfgNoDir) = false ∧
    cfgNoDir.env "PORT" = some "notanumber" ∧
    Event.chdir "/app/public" ∉ run_server cfgNoDir ∧
    Event.envRead "PORT" (some "notanumber") ∉ run_server cfgNoDir ∧
    Event.uncaughtExc "ValueError" ∉ run_server cfgNoDir := by
  have h := C9_missing_dir_precedes_port cfgNoDir rfl
  exact ⟨rfl, by decide, h.1 "/app/public", h.2.1 "PORT" (some "notanumber"),
    h.2.2.1 "ValueError"⟩

/-- C1 counterexample: with `PORT=notanumber` (and the `public` directory
present), the program does not proceed with the default port 8000: the run
ends in an uncaught `ValueError` with exit status 1 and never binds any
socket, refuting the claim that an unparseable `PORT` falls back to 8000. -/
theorem C1_counterexample :
    run_server (cfgWithPort "notanumber") =
      [Event.isdirCheck "/app/public" true, Event.chdir "/app/public",
       Event.envRead "PORT" (some "notanumber"), Event.uncaughtExc "ValueError"] ∧
    Event.bindSocket "" 8000 ∉ run_server (cfgWithPort "notanumber") ∧
    exitCode (run_server (cfgWithPort "notanumber")) = some 1 := by
  decide

/-- C1 (amended): if `PORT` is absent the program proceeds with port 8000
(the parsed default) and binds it; if `PORT` is present but unparseable as
an integer, startup fails with an uncaught `ValueError` and exit status 1,
with no fallback to 8000 and no socket bound. -/
theorem C1_port_default (cfg : SysConfig)
    (hd : cfg.isDir (public_dir cfg) = true) :
    (cfg.env "PORT" = none →
      portString cfg = "8000" ∧
      pyStrToInt (portString cfg) = some 8000 ∧
      (cfg.bindOk = true → Event.bindSocket "" 8000 ∈ run_server cfg)) ∧
    (∀ s, cfg.env "PORT" = some s → pyStrToInt s = none →
      Event.uncaughtExc "ValueError" ∈ run_server cfg ∧
      (∀ hst p, Event.bindSocket hst p ∉ run_server cfg) ∧
      exitCode (run_server cfg) = some 1) := by
  constructor
  · intro he
    have hps : portString cfg = "8000" := by simp [portString, he]
    have h8 : pyStrToInt (portString cfg) = some 8000 := by rw [hps]; decide
    refine ⟨hps, h8, ?_⟩
    intro hb
    rw [run_server_of_isdir cfg hd, h8, hb]
    simp [afterParse, afterBind]
  · intro s he hp
    have hps : portString cfg = s := by simp [portString, he]
    have hnone : pyStrToInt (portString cfg) = none := by rw [hps]; exact hp
    rw [run_server_of_isdir cfg hd, hnone]
    refine ⟨by simp [afterParse], ?_, rfl⟩
    intro hst p
    simp [afterParse]

/-- C1 witness: with `PORT` unset and `public/` present the server binds
port 8000. -/
theorem C1_port_default_witness :
    baseCfg.isDir (public_dir baseCfg) = true ∧
    baseCfg.env "PORT" = none ∧
    Event.bindSocket "" 8000 ∈ run_server baseCfg :=
  ⟨by decide, rfl, ((C1_port_default baseCfg (by decide)).1 rfl).2.2 rfl⟩

/-- C3: with the directory present and `PORT` set to a string `int()` cannot
parse, startup ends in an uncaught `ValueError` with exit status 1; no
socket is ever bound (so no silent fallback to 8000), the serve loop is
never entered, and the environment is read exactly once (no retry). -/
theorem C3_malformed_port_fatal (cfg : SysConfig) (s : String)
    (hd : cfg.isDir (public_dir cfg) = true)
    (he : cfg.env "PORT" = some s) (hp : pyStrToInt s = none) :
    exitCode (run_server cfg) = some 1 ∧
    Event.uncaughtExc "ValueError" ∈ run_server cfg ∧
    (∀ hst p, Event.bindSocket hst p ∉ run_server cfg) ∧
    Event.serveLoop ∉ run_server cfg ∧
    (run_server cfg).filterMap
        (fun e => match e with | Event.envRead k r => some (k, r) | _ => none) =
      [("PORT", some s)] := by
  have hps : portString cfg = s := by simp [portString, he]
  have hnone : pyStrToInt (portString cfg) = none := by rw [hps]; exact hp
  rw [run_server_of_isdir cfg hd, hnone, he]
  refine ⟨rfl, by simp [afterParse], ?_, by simp [afterParse], rfl⟩
  intro hst p
  simp [afterParse]

/-- C3 witness: `PORT=notanumber` ends in an uncaught `ValueError` with
exit status 1. -/
theorem C3_malformed_port_fatal_witness :
    (cfgWithPort "notanumber").isDir (public_dir (cfgWithPort "notanumber")) = true ∧
    (cfgWithPort "notanumber").env "PORT" = some "notanumber" ∧
    pyStrToInt "notanumber" = none ∧
    exitCode (run_server (cfgWithPort "notanumber")) = some 1 := by
  have h := C3_malformed_port_fatal (cfgWithPort "notanumber") "notanumber"
    (by decide) (by decide) (by decide)
  exact ⟨by decide, by decide, by decide, h.1⟩

/-- C4: for every run reaching the serve loop that ends by
`KeyboardInterrupt`, the shutdown message is printed, the socket is closed,
the process exits with status 0, and no exception propagates (no
traceback). -/
theorem C4_interrupt_clean_shutdown (cfg : SysConfig) (port : Int)
    (hd : cfg.isDir (public_dir cfg) = true)
    (hp : pyStrToInt (portString cfg) = some port)
    (hb : cfg.bindOk = true) (hs : cfg.serveEnd = ServeEnd.interrupt) :
    Event.serveLoop ∈ run_server cfg ∧
    Event.printLine shutdownMsg ∈ run_server cfg ∧
    Event.closeSocket ∈ run_server cfg ∧
    exitCode (run_server cfg) = some 0 ∧
    (∀ n, Event.uncaughtExc n ∉ run_server cfg) := by
  rw [run_server_of_isdir cfg hd, hp, hb, hs]
  refine ⟨by simp [afterParse, afterBind, serveTail],
    by simp [afterParse, afterBind, serveTail],
    by simp [afterParse, afterBind, serveTail], rfl, ?_⟩
  intro n
  simp [afterParse, afterBind, serveTail]

/-- C4 witness: the baseline interrupted run prints the shutdown line and
exits 0. -/
theorem C4_interrupt_clean_shutdown_witness :
    baseCfg.isDir (public_dir baseCfg) = true ∧
    pyStrToInt (portString baseCfg) = some 8000 ∧
    baseCfg.bindOk = true ∧
    baseCfg.serveEnd = ServeEnd.interrupt ∧
    Event.printLine shutdownMsg ∈ run_server baseCfg ∧
    exitCode (run_server baseCfg) = some 0 := by
  have h := C4_interrupt_clean_shutdown baseCfg 8000 (by decide) (by decide) rfl rfl
  exact ⟨by decide, by decide, rfl, rfl, h.2.1, h.2.2.2.1⟩

theorem run_server_success (cfg : SysConfig) (p : Int)
    (hd : cfg.isDir (public_dir cfg) = true)
    (hp : pyStrToInt (portString cfg) = some p)
    (hb : cfg.bindOk = true) :
    run_server cfg =
      Event.isdirCheck (public_dir cfg) true ::
      Event.chdir (public_dir cfg) ::
      Event.envRead "PORT" (cfg.env "PORT") ::
      Event.bindSocket "" p ::
      Event.printLine (startupMsg p) ::
      Event.timerStart 8 10 p ::
      Event.serveLoop ::
      serveTail cfg.serveEnd := by
  rw [run_server_of_isdir cfg hd, hp]
  simp [afterParse, afterBind, hb]

theorem bind_mem_cases (cfg : SysConfig) (p : Int)
    (h : Event.bindSocket "" p ∈ run_server cfg) :
    cfg.isDir (public_dir cfg) = true ∧
    pyStrToInt (portString cfg) = some p ∧
    cfg.bindOk = true := by
  by_cases hd : cfg.isDir (public_dir cfg) = true
  · rw [run_server_of_isdir cfg hd] at h
    cases hr : pyStrToInt (portString cfg) with
    | none =>
      rw [hr] at h
      simp [afterParse] at h
    | some q =>
      rw [hr] at h
      cases hb : cfg.bindOk with
      | false =>
        rw [hb] at h
        simp [afterParse, afterBind] at h
      | true =>
        rw [hb] at h
        have hpq : p = q := by
          cases hs : cfg.serveEnd <;> rw [hs] at h <;>
            simp [afterParse, afterBind, serveTail] at h <;> exact h
        subst hpq
        exact ⟨hd, rfl, rfl⟩
  · rw [Bool.not_eq_true] at hd
    rw [run_server_of_not_isdir cfg hd] at h
    simp at h

/-- C5: in every run in which the listening socket is bound, the socket is
also closed, whether the serve loop ended by interrupt or by any other
exception. -/
theorem C5_socket_released (cfg : SysConfig) (p : Int)
    (h : Event.bindSocket "" p ∈ run_server cfg) :
    Event.closeSocket ∈ run_server cfg := by
  obtain ⟨hd, hp, hb⟩ := bind_mem_cases cfg p h
  rw [run_server_success cfg p hd hp hb]
  cases hs : cfg.serveEnd <;> simp [serveTail]

/-- C5 witness: the baseline run binds port 8000 and closes the socket. -/
theorem C5_socket_released_witness :
    Event.bindSocket "" 8000 ∈ run_server baseCfg ∧
    Event.closeSocket ∈ run_server baseCfg :=
  ⟨by decide, C5_socket_released baseCfg 8000 (by decide)⟩

/-- C6: whenever the socket is bound at some port, a one-shot timer with
delay 8/10 (= 0.8) of a second is started for exactly that port and the
serve loop is entered; `open_browser` targets `http://localhost:<port>` and
returns normally whatever `webbrowser.open_new` does (every exception is
caught and discarded); and the server's trace does not depend on the
browser-open behaviour at all. -/
theorem C6_browser_timer_harmless (cfg : SysConfig) (port : Int)
    (h : Event.bindSocket "" port ∈ run_server cfg) :
    Event.timerStart 8 10 port ∈ run_server cfg ∧
    Event.serveLoop ∈ run_server cfg ∧
    browser_url port = "http://localhost:" ++ toString port ∧
    (∀ w : String → PyResult Bool, open_browser port w = PyResult.ok ()) ∧
    (∀ w₁ w₂ : String → PyResult Bool,
      run_server { cfg with webOpen := w₁ } = run_server { cfg with webOpen := w₂ }) := by
  obtain ⟨hd, hp, hb⟩ := bind_mem_cases cfg port h
  rw [run_server_success cfg port hd hp hb]
  refine ⟨by simp, by simp, rfl, ?_, ?_⟩
  · intro w
    cases hw : w (browser_url port) <;> simp [open_browser, hw]
  · intro w₁ w₂
    cases cfg
    rfl

/-- C6 witness: in the baseline run the 0.8-second timer for port 8000 is
scheduled, and `open_browser` swallows a raised `webbrowser.Error`. -/
theorem C6_browser_timer_harmless_witness :
    Event.bindSocket "" 8000 ∈ run_server baseCfg ∧
    Event.timerStart 8 10 8000 ∈ run_server baseCfg ∧
    open_browser 8000 (fun _ => PyResult.exc "webbrowser.Error") = PyResult.ok () := by
  have h := C6_browser_timer_harmless baseCfg 8000 (by decide)
  exact ⟨by decide, h.1, h.2.2.2.1 (fun _ => PyResult.exc "webbrowser.Error")⟩

/-- C7: on every successful startup exactly one line is printed before the
serve loop, it is the startup message, and that message textually contains
the bound port; in particular when `PORT=9999` the bound port is 9999. -/
theorem C7_startup_line (cfg : SysConfig) (port : Int)
    (hd : cfg.isDir (public_dir cfg) = true)
    (hp : pyStrToInt (portString cfg) = some port)
    (hb : cfg.bindOk = true) :
    printsBeforeServe (run_server cfg) = [startupMsg port] ∧
    (∃ pre post, startupMsg port = pre ++ toString port ++ post) ∧
    Event.bindSocket "" port ∈ run_server cfg ∧
    (cfg.env "PORT" = some "9999" →
      port = 9999 ∧ Event.bindSocket "" 9999 ∈ run_server cfg) := by
  have htrace := run_server_success cfg port hd hp hb
  refine ⟨?_, ?_, ?_, ?_⟩
  · rw [htrace]
    rfl
  · exact ⟨"KanbanGPT5 server running at http://localhost:", "", by simp [startupMsg]⟩
  · rw [htrace]
    simp
  · intro he
    have hps : portString cfg = "9999" := by simp [portString, he]
    rw [hps] at hp
    have h9 : pyStrToInt "9999" = some 9999 := by decide
    rw [h9] at hp
    have hpq : port = 9999 := by
      cases hp
      rfl
    subst hpq
    refine ⟨rfl, ?_⟩
    rw [htrace]
    simp

/-- C7 witness: with `PORT=9999` the server binds 9999 and the single
startup line names port 9999. -/
theorem C7_startup_line_witness :
    (cfgWithPort "9999").isDir (public_dir (cfgWithPort "9999")) = true ∧
    pyStrToInt (portString (cfgWithPort "9999")) = some 9999 ∧
    printsBeforeServe (run_server (cfgWithPort "9999")) =
      ["KanbanGPT5 server running at http://localhost:9999"] ∧
    Event.bindSocket "" 9999 ∈ run_server (cfgWithPort "9999") := by
  have h := C7_startup_line (cfgWithPort "9999") 9999 (by decide) (by decide) rfl
  exact ⟨by decide, by decide, h.1.trans (by decide), h.2.2.1⟩

/-- C8: the content directory is the sibling `public` of the directory of
the script's own resolved path; the whole run is independent of the process
working directory at invocation; and on successful validation the very next
action after the directory check is the `chdir` into `public_dir`. -/
theorem C8_public_dir_resolution (cfg : SysConfig) (c₁ c₂ : String)
    (hd : cfg.isDir (public_dir cfg) = true) :
    public_dir cfg = posixJoin (posixDirname cfg.scriptAbsPath) "public" ∧
    public_dir { cfg with cwd := c₁ } = public_dir cfg ∧
    run_server { cfg with cwd := c₁ } = run_server { cfg with cwd := c₂ } ∧
    (run_server cfg).take 2 =
      [Event.isdirCheck (public_dir cfg) true, Event.chdir (public_dir cfg)] := by
  refine ⟨rfl, rfl, ?_, ?_⟩
  · cases cfg
    rfl
  · rw [run_server_of_isdir cfg hd]
    rfl

/-- C8 witness: for the script at `/app/KanbanGPT5.py` the serving root is
`/app/public` and the run changes into it right after validating it. -/
theorem C8_public_dir_resolution_witness :
    baseCfg.isDir (public_dir baseCfg) = true ∧
    public_dir baseCfg = "/app/public" ∧
    (run_server baseCfg).take 2 =
      [Event.isdirCheck "/app/public" true, Event.chdir "/app/public"] := by
  have h := C8_public_dir_resolution baseCfg "/" "/home/user" (by decide)
  exact ⟨by decide, by decide, h.2.2.2.trans (by decide)⟩

/-- C10: the accepted `PORT` values are those of Python's `int()` on a
string, a strictly larger set than plain digit strings: every nonempty
all-digit string parses to its value, and strings with surrounding
whitespace, an explicit sign, or underscore separators -- none of which are
plain digit strings -- also parse (e.g. `" 8000 "`, `"+8000"`, `"8_000"`,
`"-1"`); such values are not treated as malformed configuration (no
`ValueError`, the server binds). -/
theorem C10_port_parse_leniency :
    (∀ s : String, s.data ≠ [] → (∀ c ∈ s.data, isPyDigit c = true) →
      pyStrToInt s = some (Int.ofNat (digitsVal s.data))) ∧
    pyStrToInt " 8000 " = some 8000 ∧
    pyStrToInt "+8000" = some 8000 ∧
    pyStrToInt "8_000" = some 8000 ∧
    pyStrToInt "-1" = some (-1) ∧
    (" 8000 ").data.all isPyDigit = false ∧
    ("+8000").data.all isPyDigit = false ∧
    ("8_000").data.all isPyDigit = false ∧
    ("-1").data.all isPyDigit = false ∧
    Event.bindSocket "" 8000 ∈ run_server (cfgWithPort " 8000 ") ∧
    Event.uncaughtExc "ValueError" ∉ run_server (cfgWithPort "8_000") :=
  ⟨pyStrToInt_of_digits, by decide⟩

/-- C10 witness: the all-digit string `"9999"` parses to its numeric
value. -/
theorem C10_port_parse_leniency_witness :
    ("9999" : String).data ≠ [] ∧
    pyStrToInt "9999" = some (Int.ofNat (digitsVal ("9999" : String).data)) :=
  ⟨by decide, C10_port_parse_leniency.1 "9999" (by decide) (by decide)⟩
